import Mathlib

/-!
Shallow embedding of the 16-bit virtual machine from RohitVM.hpp / RohitVM.cpp.

Modelling conventions:
- uint16_t values are Nat reduced mod 65536 at every point where the C++
  performs an implicit conversion to uint16_t (assignments into uint16_t
  fields, the uint16_t parameter of Memory::operator[], compound assignment
  operators on uint16_t).
- uint8_t memory cells are Nat reduced mod 256 (the cell type).
- Memory::operator[] takes its address as uint16_t, so the address of every
  access is reduced mod 65536 BEFORE std::vector::at is consulted; since the
  vector has exactly 65536 entries, at() never throws: memory access is total
  and wraps.
- VM::handleError prints and calls std::exit with the machine state frozen as
  it is at the call; we model it as Except.error carrying the error kind and
  the state at the moment of the call.
-/

namespace RohitVM

/-- Memory::SIZE = 65536. -/
def MEM_SIZE : Nat := 65536

/-! Opcode enum values (enum class Opcode : uint8_t in RohitVM.hpp). -/

def NOP : Nat := 0x01
def HLT : Nat := 0x02
def MOV : Nat := 0x08
def MOV_BX : Nat := 0x09
def MOV_CX : Nat := 0x0A
def MOV_DX : Nat := 0x0B
def MOV_SP : Nat := 0x0C
def STE : Nat := 0x10
def CLE : Nat := 0x11
def STG : Nat := 0x12
def CLG : Nat := 0x13
def STH : Nat := 0x14
def CLH : Nat := 0x15
def STL : Nat := 0x16
def CLL : Nat := 0x17
def PUSH : Nat := 0x1A
def POP : Nat := 0x1B
def ADD : Nat := 0x20
def SUB : Nat := 0x21
def MUL : Nat := 0x22
def DIV : Nat := 0x23

/-- The closed set of operation tags declared by the Opcode enum. -/
def opcodeList : List Nat :=
  [NOP, HLT, MOV, MOV_BX, MOV_CX, MOV_DX, MOV_SP,
   STE, CLE, STG, CLG, STH, CLH, STL, CLL,
   PUSH, POP, ADD, SUB, MUL, DIV]

/-! Flag bit masks (Registers::Flag). -/

def FlagEqual : Nat := 0x08
def FlagGreater : Nat := 0x04
def FlagHigher : Nat := 0x02
def FlagLower : Nat := 0x01

/-- The register file (class Registers): four general-purpose 16-bit
registers, stack pointer, instruction pointer, flag word. -/
structure Registers where
  ax : Nat
  bx : Nat
  cx : Nat
  dx : Nat
  sp : Nat
  ip : Nat
  flags : Nat

/-- Initial register values from the member initializers in RohitVM.hpp:
ax = bx = cx = dx = 0, sp = 0xFFFF, ip = 0, flags = 0. -/
def Registers.initRegs : Registers :=
  { ax := 0, bx := 0, cx := 0, dx := 0, sp := 0xFFFF, ip := 0, flags := 0 }

/-- CPU::setFlag: flags |= mask when val, flags &= ~mask otherwise.
On uint16_t the complement of mask truncates to (65535 XOR mask). -/
def setFlag (r : Registers) (mask : Nat) (val : Bool) : Registers :=
  if val then { r with flags := (r.flags ||| mask) % 65536 }
  else { r with flags := r.flags &&& (65535 ^^^ mask) }

/-- Memory contents: a byte value for every address. -/
def Mem : Type := Nat → Nat

/-- Reading memory[addr]: the uint16_t parameter of operator[] reduces the
address mod 65536 (after which at() always succeeds); the cell is uint8_t. -/
def readByte (m : Mem) (addr : Nat) : Nat := m (addr % MEM_SIZE) % 256

/-- Writing memory[addr] = v: address reduced mod 65536 by the uint16_t
parameter, value truncated to the uint8_t cell. -/
def writeByte (m : Mem) (addr v : Nat) : Mem :=
  fun a => if a = addr % MEM_SIZE then v % 256 else m a

/-- struct Instruction: opcode tag plus two optional 16-bit operands. -/
structure Instruction where
  op : Nat
  a1 : Nat := 0
  a2 : Nat := 0

/-- The whole machine: CPU registers, memory, and the loader cursor
(VM::breakLine, a uint16_t starting at 0). -/
structure VMState where
  regs : Registers
  mem : Mem
  breakLine : Nat

/-- A fresh VM: zeroed memory, initial registers, breakLine = 0. -/
def VMState.initState : VMState :=
  { regs := Registers.initRegs, mem := fun _ => 0, breakLine := 0 }

/-- The failure kinds raised through VM::handleError (each corresponds to one
handleError message string in RohitVM.cpp). -/
inductive VMErr where
  | DivisionByZero
  | IllegalInstruction
  | StackOverflow
  | StackUnderflow
  | InvalidPushRegister
  | InvalidPopRegister
deriving DecidableEq, Repr

/-- VM::getInstructionSize: the static size map. std::map::operator[]
default-inserts a value-initialized uint8_t, so an unmapped tag yields 0. -/
def getInstructionSize (op : Nat) : Nat :=
  if op = NOP then 1 else if op = HLT then 1
  else if op = MOV then 3 else if op = MOV_BX then 3 else if op = MOV_CX then 3
  else if op = MOV_DX then 3 else if op = MOV_SP then 3
  else if op = STE then 1 else if op = CLE then 1
  else if op = STG then 1 else if op = CLG then 1
  else if op = STH then 1 else if op = CLH then 1
  else if op = STL then 1 else if op = CLL then 1
  else if op = PUSH then 3 else if op = POP then 3
  else if op = ADD then 1 else if op = SUB then 1
  else if op = MUL then 1 else if op = DIV then 1
  else 0

/-- VM::fetchNextInstruction: read the tag at ip, look up its size, read the
operands (addresses ip+1 .. ip+4 wrap mod 65536 through the uint16_t
parameter of operator[]), advance ip by size (uint16_t wraparound). The
int-arithmetic operand is truncated by assignment into the uint16_t field. -/
def fetchNextInstruction (s : VMState) : Instruction × VMState :=
  let ip := s.regs.ip
  let op := readByte s.mem ip
  let size := getInstructionSize op
  let a1 := if 2 ≤ size then
      (readByte s.mem (ip + 1) ||| (readByte s.mem (ip + 2) <<< 8)) % 65536
    else 0
  let a2 := if size = 5 then
      (readByte s.mem (ip + 3) ||| (readByte s.mem (ip + 4) <<< 8)) % 65536
    else 0
  ({ op := op, a1 := a1, a2 := a2 },
   { s with regs := { s.regs with ip := (ip + size) % 65536 } })

/-- VM::push: fault StackOverflow when sp < 2 (handleError exits with the
state unchanged); otherwise sp -= 2 and store the value little-endian at the
new sp. -/
def push (s : VMState) (val : Nat) : Except (VMErr × VMState) VMState :=
  if s.regs.sp < 2 then .error (.StackOverflow, s)
  else
    let sp2 := s.regs.sp - 2
    let m1 := writeByte s.mem sp2 (val &&& 0xff)
    let m2 := writeByte m1 (sp2 + 1) ((val >>> 8) &&& 0xff)
    .ok { s with regs := { s.regs with sp := sp2 }, mem := m2 }

/-- VM::pop: fault StackUnderflow when sp > SIZE - 2; otherwise read a
little-endian 16-bit value at sp and advance sp by 2 (uint16_t wraparound;
the read value is truncated by assignment into uint16_t). -/
def pop (s : VMState) : Except (VMErr × VMState) (Nat × VMState) :=
  if s.regs.sp > MEM_SIZE - 2 then .error (.StackUnderflow, s)
  else
    let val := (readByte s.mem s.regs.sp
                 ||| (readByte s.mem (s.regs.sp + 1) <<< 8)) % 65536
    .ok (val, { s with regs := { s.regs with sp := (s.regs.sp + 2) % 65536 } })

/-- VM::executeInstruction: the dispatch switch. HLT only prints (no state
change); arithmetic is uint16_t (wraps mod 65536); DIV checks the divisor
first and handleError exits before the division; unknown tags reach the
default case, i.e. handleError with the Illegal Instruction message. -/
def executeInstruction (i : Instruction) (s : VMState) :
    Except (VMErr × VMState) VMState :=
  if i.op = NOP then .ok s
  else if i.op = HLT then .ok s
  else if i.op = MOV then .ok { s with regs := { s.regs with ax := i.a1 } }
  else if i.op = MOV_BX then .ok { s with regs := { s.regs with bx := i.a1 } }
  else if i.op = MOV_CX then .ok { s with regs := { s.regs with cx := i.a1 } }
  else if i.op = MOV_DX then .ok { s with regs := { s.regs with dx := i.a1 } }
  else if i.op = MOV_SP then .ok { s with regs := { s.regs with sp := i.a1 } }
  else if i.op = ADD then
    .ok { s with regs := { s.regs with ax := (s.regs.ax + s.regs.bx) % 65536 } }
  else if i.op = SUB then
    .ok { s with regs := { s.regs with ax := (s.regs.ax + (65536 - s.regs.bx % 65536)) % 65536 } }
  else if i.op = MUL then
    .ok { s with regs := { s.regs with ax := (s.regs.ax * s.regs.bx) % 65536 } }
  else if i.op = DIV then
    if s.regs.bx = 0 then .error (.DivisionByZero, s)
    else .ok { s with regs := { s.regs with ax := s.regs.ax / s.regs.bx } }
  else if i.op = STE then .ok { s with regs := setFlag s.regs FlagEqual true }
  else if i.op = CLE then .ok { s with regs := setFlag s.regs FlagEqual false }
  else if i.op = STG then .ok { s with regs := setFlag s.regs FlagGreater true }
  else if i.op = CLG then .ok { s with regs := setFlag s.regs FlagGreater false }
  else if i.op = STH then .ok { s with regs := setFlag s.regs FlagHigher true }
  else if i.op = CLH then .ok { s with regs := setFlag s.regs FlagHigher false }
  else if i.op = STL then .ok { s with regs := setFlag s.regs FlagLower true }
  else if i.op = CLL then .ok { s with regs := setFlag s.regs FlagLower false }
  else if i.op = PUSH then
    if i.a1 = 0x00 then push s s.regs.ax
    else if i.a1 = 0x01 then push s s.regs.bx
    else if i.a1 = 0x02 then push s s.regs.cx
    else if i.a1 = 0x03 then push s s.regs.dx
    else .error (.InvalidPushRegister, s)
  else if i.op = POP then
    if i.a1 = 0x00 then
      match pop s with
      | .error e => .error e
      | .ok (v, s1) => .ok { s1 with regs := { s1.regs with ax := v } }
    else if i.a1 = 0x01 then
      match pop s with
      | .error e => .error e
      | .ok (v, s1) => .ok { s1 with regs := { s1.regs with bx := v } }
    else if i.a1 = 0x02 then
      match pop s with
      | .error e => .error e
      | .ok (v, s1) => .ok { s1 with regs := { s1.regs with cx := v } }
    else if i.a1 = 0x03 then
      match pop s with
      | .error e => .error e
      | .ok (v, s1) => .ok { s1 with regs := { s1.regs with dx := v } }
    else .error (.InvalidPopRegister, s)
  else .error (.IllegalInstruction, s)

/-- One iteration of the loop body inside VM::execute: fetch, then execute.
Returns the executed instruction (needed to detect HLT) and the new state. -/
def step (s : VMState) : Except (VMErr × VMState) (Instruction × VMState) :=
  let fr := fetchNextInstruction s
  match executeInstruction fr.1 fr.2 with
  | .error e => .error e
  | .ok s2 => .ok (fr.1, s2)

/-- Observable outcome of VM::execute. -/
inductive RunResult where
  | Halted : VMState → RunResult
  | Faulted : VMErr → VMState → RunResult
  | OutOfFuel : VMState → RunResult

/-- VM::execute: repeat step until the executed instruction is HLT (Halted)
or a fault terminates the process (Faulted). Fuel bounds the recursion. -/
def run (fuel : Nat) (s : VMState) : RunResult :=
  match fuel with
  | 0 => .OutOfFuel s
  | n + 1 =>
    match step s with
    | .error (e, s1) => .Faulted e s1
    | .ok (instr, s1) => if instr.op = HLT then .Halted s1 else run n s1

/-- The body of the loadProgram loop for one instruction: write the tag at
breakLine, then the operands little-endian, advancing breakLine (uint16_t,
wraps mod 65536) by the instruction size. Writes go through the raw pointer
indexed by the uint16_t breakLine. -/
def loadInstr (s : VMState) (i : Instruction) : VMState :=
  let s1 : VMState :=
    { s with mem := writeByte s.mem s.breakLine i.op,
             breakLine := (s.breakLine + 1) % 65536 }
  let size := getInstructionSize i.op
  let s2 : VMState :=
    if 2 ≤ size then
      { s1 with
        mem := writeByte (writeByte s1.mem s1.breakLine (i.a1 &&& 0xff))
                 ((s1.breakLine + 1) % 65536) ((i.a1 >>> 8) &&& 0xff),
        breakLine := (s1.breakLine + 2) % 65536 }
    else s1
  if size = 5 then
    { s2 with
      mem := writeByte (writeByte s2.mem s2.breakLine (i.a2 &&& 0xff))
               ((s2.breakLine + 1) % 65536) ((i.a2 >>> 8) &&& 0xff),
      breakLine := (s2.breakLine + 2) % 65536 }
  else s2

/-- VM::loadProgram: encode each instruction in order starting at the
current breakLine cursor. No size validation of any kind is performed. -/
def loadProgram (s : VMState) (program : List Instruction) : VMState :=
  program.foldl loadInstr s

/-- C1 concrete memory: MOV tag at the last address, distinctive bytes at 0, 1. -/
def c1Mem : Mem :=
  writeByte (writeByte (writeByte (fun _ => 0) 0xFFFF MOV) 0 0x34) 1 0x12

/-- C1 concrete state: instruction pointer at the last memory address. -/
def c1State : VMState :=
  { regs := { Registers.initRegs with ip := 0xFFFF }, mem := c1Mem, breakLine := 0 }

/-! Helper lemmas -/

theorem and_255_eq_mod (v : Nat) : v &&& 0xff = v % 256 := by
  have h := Nat.and_pow_two_sub_one_eq_mod v 8
  norm_num at h
  exact h

theorem shiftRight_8_eq_div (v : Nat) : v >>> 8 = v / 256 := by
  rw [Nat.shiftRight_eq_div_pow]

theorem lor_bytes (v : Nat) (h : v < 65536) :
    (v % 256) ||| ((v / 256 % 256) <<< 8) = v := by
  have h2 : v / 256 % 256 = v / 256 := Nat.mod_eq_of_lt (by omega)
  rw [h2, Nat.shiftLeft_eq, Nat.lor_comm, Nat.mul_comm (v / 256) (2 ^ 8),
    ← Nat.mul_add_lt_is_or (show v % 256 < 2 ^ 8 by omega) (v / 256)]
  omega

theorem lor_shift_eq_add (lo hi : Nat) (h : lo < 256) :
    lo ||| (hi <<< 8) = lo + 256 * hi := by
  rw [Nat.shiftLeft_eq, Nat.lor_comm, Nat.mul_comm hi (2 ^ 8),
    ← Nat.mul_add_lt_is_or (show lo < 2 ^ 8 by omega) hi]
  omega

theorem readByte_lt (m : Mem) (a : Nat) : readByte m a < 256 :=
  Nat.mod_lt _ (by omega)

theorem readByte_writeByte_of_eq (m : Mem) (a v x : Nat)
    (hx : x % MEM_SIZE = a % MEM_SIZE) :
    readByte (writeByte m a v) x = v % 256 := by
  unfold readByte writeByte
  simp [hx]

theorem readByte_writeByte_of_ne (m : Mem) (a v x : Nat)
    (hx : x % MEM_SIZE ≠ a % MEM_SIZE) :
    readByte (writeByte m a v) x = readByte m x := by
  unfold readByte writeByte
  simp [hx]

/-- Shape of loadInstr for a 1-byte instruction. -/
theorem loadInstr_size1 (s : VMState) (i : Instruction)
    (h : getInstructionSize i.op = 1) :
    loadInstr s i = { s with mem := writeByte s.mem s.breakLine i.op,
                             breakLine := (s.breakLine + 1) % 65536 } := by
  unfold loadInstr
  rw [h]
  norm_num

/-- Shape of loadInstr for a 3-byte instruction whose encoding fits below
the end of memory. -/
theorem loadInstr_size3 (s : VMState) (i : Instruction)
    (h : getInstructionSize i.op = 3) (hb : s.breakLine + 3 < 65536) :
    loadInstr s i = { s with
      mem := writeByte (writeByte (writeByte s.mem s.breakLine i.op)
               (s.breakLine + 1) (i.a1 &&& 0xff))
               (s.breakLine + 2) ((i.a1 >>> 8) &&& 0xff),
      breakLine := s.breakLine + 3 } := by
  unfold loadInstr
  rw [h]
  have e1 : (s.breakLine + 1) % 65536 = s.breakLine + 1 := by omega
  have e2 : (s.breakLine + 1 + 1) % 65536 = s.breakLine + 2 := by omega
  have e3 : (s.breakLine + 1 + 2) % 65536 = s.breakLine + 3 := by omega
  norm_num [e1, e2, e3]

/-- Fetch from a memory whose bytes at ip are a freshly written 1-byte
instruction. -/
theorem fetch_size1 (s : VMState) (b opv : Nat) (m : Mem)
    (hm : s.mem = writeByte m b opv) (hip : s.regs.ip = b)
    (hop : opv < 256) (hsz : getInstructionSize opv = 1) (hb : b + 1 < 65536) :
    fetchNextInstruction s =
      ({ op := opv, a1 := 0, a2 := 0 },
       { s with regs := { s.regs with ip := b + 1 } }) := by
  have hread : readByte s.mem b = opv := by
    rw [hm, readByte_writeByte_of_eq m b opv b rfl]
    omega
  have e1 : (b + 1) % 65536 = b + 1 := by omega
  simp only [fetchNextInstruction, hip, hread, hsz, e1]
  norm_num

/-- Fetch from a memory whose bytes at ip are a freshly written 3-byte
instruction (tag, then the operand little-endian). -/
theorem fetch_size3 (s : VMState) (b opv a1v : Nat) (m : Mem)
    (hm : s.mem = writeByte (writeByte (writeByte m b opv)
            (b + 1) (a1v &&& 0xff)) (b + 2) ((a1v >>> 8) &&& 0xff))
    (hip : s.regs.ip = b)
    (hop : opv < 256) (hsz : getInstructionSize opv = 3)
    (hb : b + 3 < 65536) (ha : a1v < 65536) :
    fetchNextInstruction s =
      ({ op := opv, a1 := a1v, a2 := 0 },
       { s with regs := { s.regs with ip := b + 3 } }) := by
  have hread : readByte s.mem b = opv := by
    rw [hm,
      readByte_writeByte_of_ne _ _ _ _ (by unfold MEM_SIZE; omega),
      readByte_writeByte_of_ne _ _ _ _ (by unfold MEM_SIZE; omega),
      readByte_writeByte_of_eq m b opv b rfl]
    omega
  have hlo : readByte s.mem (b + 1) = a1v % 256 := by
    rw [hm,
      readByte_writeByte_of_ne _ _ _ _ (by unfold MEM_SIZE; omega),
      readByte_writeByte_of_eq _ _ _ _ (by rfl)]
    rw [and_255_eq_mod]
    omega
  have hhi : readByte s.mem (b + 2) = a1v / 256 % 256 := by
    rw [hm, readByte_writeByte_of_eq _ _ _ _ (by rfl)]
    rw [and_255_eq_mod, shiftRight_8_eq_div]
    omega
  have e3 : (b + 3) % 65536 = b + 3 := by omega
  have hval : (a1v % 256 ||| (a1v / 256 % 256) <<< 8) % 65536 = a1v := by
    rw [lor_bytes a1v ha]
    omega
  simp only [fetchNextInstruction, hip, hread, hsz, hlo, hhi, e3]
  norm_num [hval]

/-- Shape of push when there is headroom. -/
theorem push_ok (s : VMState) (v : Nat) (h : 2 ≤ s.regs.sp) :
    push s v = .ok { s with
      regs := { s.regs with sp := s.regs.sp - 2 },
      mem := writeByte (writeByte s.mem (s.regs.sp - 2) (v &&& 0xff))
               (s.regs.sp - 2 + 1) ((v >>> 8) &&& 0xff) } := by
  unfold push
  rw [if_neg (by omega)]

/-- Shape of pop when the stack is nonempty. -/
theorem pop_ok (s : VMState) (h : s.regs.sp ≤ 65534) :
    pop s = .ok ((readByte s.mem s.regs.sp
        ||| (readByte s.mem (s.regs.sp + 1) <<< 8)) % 65536,
      { s with regs := { s.regs with sp := (s.regs.sp + 2) % 65536 } }) := by
  unfold pop
  rw [if_neg (show ¬s.regs.sp > MEM_SIZE - 2 by unfold MEM_SIZE; omega)]

/-- Popping immediately after pushing returns the pushed 16-bit value and
restores the stack pointer. -/
theorem push_pop_pair (s : VMState) (v : Nat) (h2 : 2 ≤ s.regs.sp)
    (hsp : s.regs.sp < 65536) (hv : v < 65536) :
    ∃ s1, push s v = .ok s1 ∧
      s1.regs.ax = s.regs.ax ∧ s1.regs.bx = s.regs.bx ∧
      s1.regs.cx = s.regs.cx ∧ s1.regs.dx = s.regs.dx ∧
      pop s1 = .ok (v, { s1 with regs := { s1.regs with sp := s.regs.sp } }) := by
  refine ⟨_, push_ok s v h2, rfl, rfl, rfl, rfl, ?_⟩
  rw [pop_ok _ (by show s.regs.sp - 2 ≤ 65534; omega)]
  have hlo : readByte (writeByte (writeByte s.mem (s.regs.sp - 2) (v &&& 0xff))
      (s.regs.sp - 2 + 1) ((v >>> 8) &&& 0xff)) (s.regs.sp - 2) = v % 256 := by
    rw [readByte_writeByte_of_ne _ _ _ _ (by unfold MEM_SIZE; omega),
      readByte_writeByte_of_eq _ _ _ _ rfl, and_255_eq_mod]
    omega
  have hhi : readByte (writeByte (writeByte s.mem (s.regs.sp - 2) (v &&& 0xff))
      (s.regs.sp - 2 + 1) ((v >>> 8) &&& 0xff)) (s.regs.sp - 2 + 1) = v / 256 % 256 := by
    rw [readByte_writeByte_of_eq _ _ _ _ rfl, and_255_eq_mod, shiftRight_8_eq_div]
    omega
  have hval : (v % 256 ||| (v / 256 % 256) <<< 8) % 65536 = v := by
    rw [lor_bytes v hv]; omega
  have hsp2 : (s.regs.sp - 2 + 2) % 65536 = s.regs.sp := by omega
  show Except.ok _ = _
  dsimp only
  rw [hlo, hhi, hval, hsp2]

theorem execute_pop_ax (t t1 : VMState) (v : Nat) (h : pop t = .ok (v, t1)) :
    executeInstruction { op := POP, a1 := 0x00 } t =
      .ok { t1 with regs := { t1.regs with ax := v } } := by
  have he : executeInstruction { op := POP, a1 := 0x00 } t =
      (match pop t with
       | .error e => .error e
       | .ok (v, s1) => .ok { s1 with regs := { s1.regs with ax := v } }) := rfl
  rw [he, h]

theorem execute_pop_bx (t t1 : VMState) (v : Nat) (h : pop t = .ok (v, t1)) :
    executeInstruction { op := POP, a1 := 0x01 } t =
      .ok { t1 with regs := { t1.regs with bx := v } } := by
  have he : executeInstruction { op := POP, a1 := 0x01 } t =
      (match pop t with
       | .error e => .error e
       | .ok (v, s1) => .ok { s1 with regs := { s1.regs with bx := v } }) := rfl
  rw [he, h]

theorem execute_pop_cx (t t1 : VMState) (v : Nat) (h : pop t = .ok (v, t1)) :
    executeInstruction { op := POP, a1 := 0x02 } t =
      .ok { t1 with regs := { t1.regs with cx := v } } := by
  have he : executeInstruction { op := POP, a1 := 0x02 } t =
      (match pop t with
       | .error e => .error e
       | .ok (v, s1) => .ok { s1 with regs := { s1.regs with cx := v } }) := rfl
  rw [he, h]

theorem execute_pop_dx (t t1 : VMState) (v : Nat) (h : pop t = .ok (v, t1)) :
    executeInstruction { op := POP, a1 := 0x03 } t =
      .ok { t1 with regs := { t1.regs with dx := v } } := by
  have he : executeInstruction { op := POP, a1 := 0x03 } t =
      (match pop t with
       | .error e => .error e
       | .ok (v, s1) => .ok { s1 with regs := { s1.regs with dx := v } }) := rfl
  rw [he, h]

/-- Claim C4: for every register role r in 0..3 (primary, base, count, data)
and every state whose stack pointer has at least 2 bytes of headroom, the PUSH
instruction selecting r followed immediately by the POP instruction selecting
r leaves all four general-purpose registers (in particular r, which still
holds its 16-bit value) and the stack pointer exactly as before the push. -/
theorem C4_push_pop_roundtrip (s : VMState) (r : Nat) (hr : r < 4)
    (h2 : 2 ≤ s.regs.sp) (hsp : s.regs.sp < 65536)
    (hax : s.regs.ax < 65536) (hbx : s.regs.bx < 65536)
    (hcx : s.regs.cx < 65536) (hdx : s.regs.dx < 65536) :
    ∃ s1 s2, executeInstruction { op := PUSH, a1 := r } s = .ok s1 ∧
      executeInstruction { op := POP, a1 := r } s1 = .ok s2 ∧
      s2.regs.ax = s.regs.ax ∧ s2.regs.bx = s.regs.bx ∧
      s2.regs.cx = s.regs.cx ∧ s2.regs.dx = s.regs.dx ∧
      s2.regs.sp = s.regs.sp := by
  interval_cases r
  · obtain ⟨s1, hp, e1, e2, e3, e4, hq⟩ := push_pop_pair s s.regs.ax h2 hsp hax
    exact ⟨s1, _, hp, execute_pop_ax _ _ _ hq, rfl, e2, e3, e4, rfl⟩
  · obtain ⟨s1, hp, e1, e2, e3, e4, hq⟩ := push_pop_pair s s.regs.bx h2 hsp hbx
    exact ⟨s1, _, hp, execute_pop_bx _ _ _ hq, e1, rfl, e3, e4, rfl⟩
  · obtain ⟨s1, hp, e1, e2, e3, e4, hq⟩ := push_pop_pair s s.regs.cx h2 hsp hcx
    exact ⟨s1, _, hp, execute_pop_cx _ _ _ hq, e1, e2, rfl, e4, rfl⟩
  · obtain ⟨s1, hp, e1, e2, e3, e4, hq⟩ := push_pop_pair s s.regs.dx h2 hsp hdx
    exact ⟨s1, _, hp, execute_pop_dx _ _ _ hq, e1, e2, e3, rfl, rfl⟩

/-- Claim C5: push faults with StackOverflow exactly when the stack pointer
is below 2, and otherwise decrements it by 2 and stores the 16-bit value
little-endian at the new stack pointer; pop faults with StackUnderflow
exactly when the stack pointer exceeds 65534, and otherwise reads the
little-endian 16-bit value at the stack pointer and advances it by 2 (as a
16-bit register, i.e. modulo 65536). -/
theorem C5_stack_discipline (s : VMState) (v : Nat) (hsp : s.regs.sp < 65536) :
    (s.regs.sp < 2 → push s v = .error (.StackOverflow, s)) ∧
    (2 ≤ s.regs.sp → ∃ s1, push s v = .ok s1 ∧ s1.regs.sp = s.regs.sp - 2 ∧
      readByte s1.mem (s.regs.sp - 2) = v % 256 ∧
      readByte s1.mem (s.regs.sp - 1) = v / 256 % 256) ∧
    (65534 < s.regs.sp → pop s = .error (.StackUnderflow, s)) ∧
    (s.regs.sp ≤ 65534 → ∃ s1,
      pop s = .ok (readByte s.mem s.regs.sp + 256 * readByte s.mem (s.regs.sp + 1), s1) ∧
      s1.regs.sp = (s.regs.sp + 2) % 65536 ∧ s1.mem = s.mem) := by
  refine ⟨?_, ?_, ?_, ?_⟩
  · intro h
    unfold push
    rw [if_pos h]
  · intro h
    refine ⟨_, push_ok s v h, rfl, ?_, ?_⟩
    · rw [readByte_writeByte_of_ne _ _ _ _ (by unfold MEM_SIZE; omega),
        readByte_writeByte_of_eq _ _ _ _ rfl, and_255_eq_mod]
      omega
    · rw [show s.regs.sp - 1 = s.regs.sp - 2 + 1 by omega,
        readByte_writeByte_of_eq _ _ _ _ rfl, and_255_eq_mod, shiftRight_8_eq_div]
      omega
  · intro h
    unfold pop
    rw [if_pos (show s.regs.sp > MEM_SIZE - 2 by unfold MEM_SIZE; omega)]
  · intro h
    have hv2 : (readByte s.mem s.regs.sp ||| (readByte s.mem (s.regs.sp + 1) <<< 8)) % 65536
        = readByte s.mem s.regs.sp + 256 * readByte s.mem (s.regs.sp + 1) := by
      rw [lor_shift_eq_add _ _ (readByte_lt _ _)]
      refine Nat.mod_eq_of_lt ?_
      have ha := readByte_lt s.mem s.regs.sp
      have hb := readByte_lt s.mem (s.regs.sp + 1)
      omega
    rw [pop_ok s h, hv2]
    exact ⟨_, rfl, rfl, rfl⟩

/-- Claim C6: when the base register is 0, the div operation faults with
DivisionByZero and the machine state at the fault (including the primary
register) is exactly the state before the div; when the base register is
nonzero, div sets the primary register to primary divided by base. -/
theorem C6_div_by_zero (s : VMState) :
    (s.regs.bx = 0 → executeInstruction { op := DIV } s = .error (.DivisionByZero, s)) ∧
    (s.regs.bx ≠ 0 → executeInstruction { op := DIV } s =
      .ok { s with regs := { s.regs with ax := s.regs.ax / s.regs.bx } }) := by
  have he : executeInstruction { op := DIV } s =
      (if s.regs.bx = 0 then .error (.DivisionByZero, s)
       else .ok { s with regs := { s.regs with ax := s.regs.ax / s.regs.bx } }) := rfl
  constructor
  · intro h
    rw [he, if_pos h]
  · intro h
    rw [he, if_neg h]

theorem flagBits8 : ∀ f < 16,
    ((f ||| 8) % 65536).testBit 3 = true ∧
    (f &&& (65535 ^^^ 8)).testBit 3 = false ∧
    ((f ||| 8) % 65536).testBit 2 = f.testBit 2 ∧
    ((f ||| 8) % 65536).testBit 1 = f.testBit 1 ∧
    ((f ||| 8) % 65536).testBit 0 = f.testBit 0 ∧
    (f &&& (65535 ^^^ 8)).testBit 2 = f.testBit 2 ∧
    (f &&& (65535 ^^^ 8)).testBit 1 = f.testBit 1 ∧
    (f &&& (65535 ^^^ 8)).testBit 0 = f.testBit 0 := by decide

theorem flagBits4 : ∀ f < 16,
    ((f ||| 4) % 65536).testBit 2 = true ∧
    (f &&& (65535 ^^^ 4)).testBit 2 = false ∧
    ((f ||| 4) % 65536).testBit 3 = f.testBit 3 ∧
    ((f ||| 4) % 65536).testBit 1 = f.testBit 1 ∧
    ((f ||| 4) % 65536).testBit 0 = f.testBit 0 ∧
    (f &&& (65535 ^^^ 4)).testBit 3 = f.testBit 3 ∧
    (f &&& (65535 ^^^ 4)).testBit 1 = f.testBit 1 ∧
    (f &&& (65535 ^^^ 4)).testBit 0 = f.testBit 0 := by decide

theorem flagBits2 : ∀ f < 16,
    ((f ||| 2) % 65536).testBit 1 = true ∧
    (f &&& (65535 ^^^ 2)).testBit 1 = false ∧
    ((f ||| 2) % 65536).testBit 3 = f.testBit 3 ∧
    ((f ||| 2) % 65536).testBit 2 = f.testBit 2 ∧
    ((f ||| 2) % 65536).testBit 0 = f.testBit 0 ∧
    (f &&& (65535 ^^^ 2)).testBit 3 = f.testBit 3 ∧
    (f &&& (65535 ^^^ 2)).testBit 2 = f.testBit 2 ∧
    (f &&& (65535 ^^^ 2)).testBit 0 = f.testBit 0 := by decide

theorem flagBits1 : ∀ f < 16,
    ((f ||| 1) % 65536).testBit 0 = true ∧
    (f &&& (65535 ^^^ 1)).testBit 0 = false ∧
    ((f ||| 1) % 65536).testBit 3 = f.testBit 3 ∧
    ((f ||| 1) % 65536).testBit 2 = f.testBit 2 ∧
    ((f ||| 1) % 65536).testBit 1 = f.testBit 1 ∧
    (f &&& (65535 ^^^ 1)).testBit 3 = f.testBit 3 ∧
    (f &&& (65535 ^^^ 1)).testBit 2 = f.testBit 2 ∧
    (f &&& (65535 ^^^ 1)).testBit 1 = f.testBit 1 := by decide

/-- Claim C9: executing the move operation for each general-purpose register
role with operand v makes an immediate read of that register yield v; and the
program [move-primary 0x1234, halt] runs to Halted with the primary register
equal to 0x1234. -/
theorem C9_mov (s : VMState) (v : Nat) :
    executeInstruction { op := MOV, a1 := v } s =
      .ok { s with regs := { s.regs with ax := v } } ∧
    executeInstruction { op := MOV_BX, a1 := v } s =
      .ok { s with regs := { s.regs with bx := v } } ∧
    executeInstruction { op := MOV_CX, a1 := v } s =
      .ok { s with regs := { s.regs with cx := v } } ∧
    executeInstruction { op := MOV_DX, a1 := v } s =
      .ok { s with regs := { s.regs with dx := v } } ∧
    (∃ sh, run 2 (loadProgram VMState.initState
        [{ op := MOV, a1 := 0x1234 }, { op := HLT }]) = .Halted sh ∧
      sh.regs.ax = 0x1234) := by
  refine ⟨rfl, rfl, rfl, rfl, ⟨_, rfl, by decide⟩⟩

/-- Claim C10: add, sub and mul set the primary register to the sum,
difference and product of primary and base reduced modulo 65536 (16-bit
unsigned wraparound, the difference stated over the integers), leaving base,
count, data, the stack pointer and the flag word unchanged. -/
theorem C10_arith (s : VMState) (hax : s.regs.ax < 65536) (hbx : s.regs.bx < 65536) :
    (∃ s1, executeInstruction { op := ADD } s = .ok s1 ∧
      s1.regs.ax = (s.regs.ax + s.regs.bx) % 65536 ∧
      s1.regs.bx = s.regs.bx ∧ s1.regs.cx = s.regs.cx ∧ s1.regs.dx = s.regs.dx ∧
      s1.regs.sp = s.regs.sp ∧ s1.regs.flags = s.regs.flags) ∧
    (∃ s1, executeInstruction { op := SUB } s = .ok s1 ∧
      (s1.regs.ax : Int) = ((s.regs.ax : Int) - (s.regs.bx : Int)) % 65536 ∧
      s1.regs.bx = s.regs.bx ∧ s1.regs.cx = s.regs.cx ∧ s1.regs.dx = s.regs.dx ∧
      s1.regs.sp = s.regs.sp ∧ s1.regs.flags = s.regs.flags) ∧
    (∃ s1, executeInstruction { op := MUL } s = .ok s1 ∧
      s1.regs.ax = (s.regs.ax * s.regs.bx) % 65536 ∧
      s1.regs.bx = s.regs.bx ∧ s1.regs.cx = s.regs.cx ∧ s1.regs.dx = s.regs.dx ∧
      s1.regs.sp = s.regs.sp ∧ s1.regs.flags = s.regs.flags) := by
  refine ⟨⟨_, rfl, rfl, rfl, rfl, rfl, rfl, rfl⟩,
          ⟨_, rfl, ?_, rfl, rfl, rfl, rfl, rfl⟩,
          ⟨_, rfl, rfl, rfl, rfl, rfl, rfl, rfl⟩⟩
  show (((s.regs.ax + (65536 - s.regs.bx % 65536)) % 65536 : Nat) : Int) = _
  omega

/-- Claim C3: executing a step at an instruction pointer holding an operation
tag outside the recognized opcode set faults with IllegalInstruction, and the
four general-purpose registers, the stack pointer and the flag word retain the
values they had before the step; the size lookup yields 0 for such a tag, so
it is never treated as a valid length-1 instruction. -/
theorem C3_illegal_tag (s : VMState)
    (h : readByte s.mem s.regs.ip ∉ opcodeList) :
    getInstructionSize (readByte s.mem s.regs.ip) ≠ 1 ∧
    ∃ s1, step s = .error (.IllegalInstruction, s1) ∧
      s1.regs.ax = s.regs.ax ∧ s1.regs.bx = s.regs.bx ∧ s1.regs.cx = s.regs.cx ∧
      s1.regs.dx = s.regs.dx ∧ s1.regs.sp = s.regs.sp ∧
      s1.regs.flags = s.regs.flags := by
  simp only [opcodeList, List.mem_cons, List.not_mem_nil, or_false, not_or,
    NOP, HLT, MOV, MOV_BX, MOV_CX, MOV_DX, MOV_SP, STE, CLE, STG, CLG, STH,
    CLH, STL, CLL, PUSH, POP, ADD, SUB, MUL, DIV] at h
  obtain ⟨h1, h2, h3, h4, h5, h6, h7, h8, h9, h10, h11, h12, h13, h14, h15,
    h16, h17, h18, h19, h20, h21⟩ := h
  constructor
  · simp [getInstructionSize, NOP, HLT, MOV, MOV_BX, MOV_CX, MOV_DX, MOV_SP,
      STE, CLE, STG, CLG, STH, CLH, STL, CLL, PUSH, POP, ADD, SUB, MUL, DIV,
      h1, h2, h3, h4, h5, h6, h7, h8, h9, h10, h11, h12, h13, h14, h15, h16,
      h17, h18, h19, h20, h21]
  · refine ⟨(fetchNextInstruction s).2, ?_, rfl, rfl, rfl, rfl, rfl, rfl⟩
    have hopeq : (fetchNextInstruction s).1.op = readByte s.mem s.regs.ip := rfl
    have he : executeInstruction (fetchNextInstruction s).1 (fetchNextInstruction s).2
        = .error (.IllegalInstruction, (fetchNextInstruction s).2) := by
      simp only [executeInstruction, hopeq, NOP, HLT, MOV, MOV_BX, MOV_CX,
        MOV_DX, MOV_SP, STE, CLE, STG, CLG, STH, CLH, STL, CLL, PUSH, POP,
        ADD, SUB, MUL, DIV]
      simp [h1, h2, h3, h4, h5, h6, h7, h8, h9, h10, h11, h12, h13, h14, h15,
        h16, h17, h18, h19, h20, h21]
    simp only [step]
    rw [he]

/-- classification of recognized opcodes -/
theorem opcode_size_cases : ∀ op ∈ opcodeList,
    op < 256 ∧ (getInstructionSize op = 1 ∨ getInstructionSize op = 3) := by
  decide

/-- Claim C8: loading and fetching are inverse. For every recognized tag, the
loader writes the tag then the operand low byte first, advancing its cursor by
exactly the encoded length (1 or 3 in the recognized set), and a fetch at that
address reconstructs the same tag, the same first operand when the length is
at least 3, and advances the instruction pointer by the same length. -/
theorem C8_load_fetch (s : VMState) (i : Instruction)
    (hop : i.op ∈ opcodeList) (ha : i.a1 < 65536)
    (hb : s.breakLine + getInstructionSize i.op < 65536) :
    (loadInstr s i).breakLine = s.breakLine + getInstructionSize i.op ∧
    (getInstructionSize i.op = 1 ∨ getInstructionSize i.op = 3) ∧
    ∃ instr s2,
      fetchNextInstruction
        { loadInstr s i with regs := { (loadInstr s i).regs with ip := s.breakLine } }
        = (instr, s2) ∧
      instr.op = i.op ∧
      (3 ≤ getInstructionSize i.op → instr.a1 = i.a1) ∧
      s2.regs.ip = s.breakLine + getInstructionSize i.op := by
  obtain ⟨hlt, hsz⟩ := opcode_size_cases i.op hop
  rcases hsz with hsz | hsz
  · rw [hsz] at hb ⊢
    rw [loadInstr_size1 s i hsz]
    refine ⟨by show (s.breakLine + 1) % 65536 = s.breakLine + 1; omega, Or.inl rfl, ?_⟩
    refine ⟨_, _, fetch_size1 _ s.breakLine i.op s.mem rfl rfl hlt hsz (by omega), rfl, ?_, rfl⟩
    intro h3
    omega
  · rw [hsz] at hb ⊢
    rw [loadInstr_size3 s i hsz (by omega)]
    refine ⟨rfl, Or.inr rfl, ?_⟩
    refine ⟨_, _, fetch_size3 _ s.breakLine i.op i.a1 s.mem rfl rfl hlt hsz (by omega) ha, rfl, ?_, rfl⟩
    intro
    rfl

/-- loadProgram over replicated NOPs advances breakLine mod 65536. -/
theorem loadProgram_rep_nop (n : Nat) : ∀ s : VMState, s.breakLine < 65536 →
    (loadProgram s (List.replicate n { op := NOP })).breakLine
      = (s.breakLine + n) % 65536 := by
  induction n with
  | zero =>
    intro s hs
    simp [loadProgram]
    omega
  | succ k ih =>
    intro s hs
    rw [List.replicate_succ]
    have hcons : loadProgram s ({ op := NOP } :: List.replicate k { op := NOP })
        = loadProgram (loadInstr s { op := NOP }) (List.replicate k { op := NOP }) := rfl
    rw [hcons, loadInstr_size1 s { op := NOP } rfl]
    rw [ih _ (by show (s.breakLine + 1) % 65536 < 65536; omega)]
    show ((s.breakLine + 1) % 65536 + k) % 65536 = (s.breakLine + (k + 1)) % 65536
    omega

/-- loadProgram over replicated NOPs preserves the NOP byte at address 0. -/
theorem loadProgram_rep_nop_mem0 (n : Nat) : ∀ s : VMState,
    readByte s.mem 0 = NOP →
    readByte (loadProgram s (List.replicate n { op := NOP })).mem 0 = NOP := by
  induction n with
  | zero => intro s hs; exact hs
  | succ k ih =>
    intro s hs
    rw [List.replicate_succ]
    have hcons : loadProgram s ({ op := NOP } :: List.replicate k { op := NOP })
        = loadProgram (loadInstr s { op := NOP }) (List.replicate k { op := NOP }) := rfl
    rw [hcons, loadInstr_size1 s { op := NOP } rfl]
    apply ih
    show readByte (writeByte s.mem s.breakLine NOP) 0 = NOP
    by_cases hc : (0 : Nat) % MEM_SIZE = s.breakLine % MEM_SIZE
    · rw [readByte_writeByte_of_eq _ _ _ _ hc]
      decide
    · rw [readByte_writeByte_of_ne _ _ _ _ hc]
      exact hs

/-- Claim C2 (code_bug evidence): the spec requires loading an oversized
program to fault with ProgramTooLarge and to perform no partial write. The
code has no size validation: loading 65537 one-byte NOP instructions (65537
encoded bytes, exceeding the 65536-byte capacity) into a fresh VM completes
without any failure, wraps the write cursor to 1, and mutates memory (address
0 holds the NOP tag, while a fresh VM holds 0 there). -/
theorem C2_oversized_load_wraps :
    (loadProgram VMState.initState (List.replicate 65537 { op := NOP })).breakLine = 1 ∧
    readByte (loadProgram VMState.initState (List.replicate 65537 { op := NOP })).mem 0
      = NOP := by
  constructor
  · rw [loadProgram_rep_nop 65537 VMState.initState (by norm_num [VMState.initState])]
    show ((0 : Nat) + 65537) % 65536 = 1
    norm_num
  · have h0 : (65537 : Nat) = 65536 + 1 := by norm_num
    rw [h0, List.replicate_succ]
    rw [loadProgram, List.foldl_cons, ← loadProgram]
    apply loadProgram_rep_nop_mem0
    rw [loadInstr_size1 VMState.initState { op := NOP } rfl]
    show readByte (writeByte VMState.initState.mem VMState.initState.breakLine NOP) 0 = NOP
    rw [readByte_writeByte_of_eq VMState.initState.mem VMState.initState.breakLine NOP 0
      (by decide)]
    decide

/-- Claim C7: for each of the four flags (Equal bit 3, Greater bit 2,
Higher bit 1, Lower bit 0) and every one of the 16 initial flag combinations,
the set operation sets exactly its bit and the clear operation clears exactly
its bit, leaving the other three flag bits and all other registers
unchanged. -/
theorem C7_flag_ops (s : VMState) (hf : s.regs.flags < 16) :
    (∃ s1, executeInstruction { op := STE } s = .ok s1 ∧
      s1.regs.flags.testBit 3 = true ∧
      s1.regs.flags.testBit 2 = s.regs.flags.testBit 2 ∧
      s1.regs.flags.testBit 1 = s.regs.flags.testBit 1 ∧
      s1.regs.flags.testBit 0 = s.regs.flags.testBit 0 ∧
      s1.regs.ax = s.regs.ax ∧ s1.regs.bx = s.regs.bx ∧ s1.regs.cx = s.regs.cx ∧
      s1.regs.dx = s.regs.dx ∧ s1.regs.sp = s.regs.sp ∧ s1.regs.ip = s.regs.ip) ∧
    (∃ s1, executeInstruction { op := CLE } s = .ok s1 ∧
      s1.regs.flags.testBit 3 = false ∧
      s1.regs.flags.testBit 2 = s.regs.flags.testBit 2 ∧
      s1.regs.flags.testBit 1 = s.regs.flags.testBit 1 ∧
      s1.regs.flags.testBit 0 = s.regs.flags.testBit 0 ∧
      s1.regs.ax = s.regs.ax ∧ s1.regs.bx = s.regs.bx ∧ s1.regs.cx = s.regs.cx ∧
      s1.regs.dx = s.regs.dx ∧ s1.regs.sp = s.regs.sp ∧ s1.regs.ip = s.regs.ip) ∧
    (∃ s1, executeInstruction { op := STG } s = .ok s1 ∧
      s1.regs.flags.testBit 2 = true ∧
      s1.regs.flags.testBit 3 = s.regs.flags.testBit 3 ∧
      s1.regs.flags.testBit 1 = s.regs.flags.testBit 1 ∧
      s1.regs.flags.testBit 0 = s.regs.flags.testBit 0 ∧
      s1.regs.ax = s.regs.ax ∧ s1.regs.bx = s.regs.bx ∧ s1.regs.cx = s.regs.cx ∧
      s1.regs.dx = s.regs.dx ∧ s1.regs.sp = s.regs.sp ∧ s1.regs.ip = s.regs.ip) ∧
    (∃ s1, executeInstruction { op := CLG } s = .ok s1 ∧
      s1.regs.flags.testBit 2 = false ∧
      s1.regs.flags.testBit 3 = s.regs.flags.testBit 3 ∧
      s1.regs.flags.testBit 1 = s.regs.flags.testBit 1 ∧
      s1.regs.flags.testBit 0 = s.regs.flags.testBit 0 ∧
      s1.regs.ax = s.regs.ax ∧ s1.regs.bx = s.regs.bx ∧ s1.regs.cx = s.regs.cx ∧
      s1.regs.dx = s.regs.dx ∧ s1.regs.sp = s.regs.sp ∧ s1.regs.ip = s.regs.ip) ∧
    (∃ s1, executeInstruction { op := STH } s = .ok s1 ∧
      s1.regs.flags.testBit 1 = true ∧
      s1.regs.flags.testBit 3 = s.regs.flags.testBit 3 ∧
      s1.regs.flags.testBit 2 = s.regs.flags.testBit 2 ∧
      s1.regs.flags.testBit 0 = s.regs.flags.testBit 0 ∧
      s1.regs.ax = s.regs.ax ∧ s1.regs.bx = s.regs.bx ∧ s1.regs.cx = s.regs.cx ∧
      s1.regs.dx = s.regs.dx ∧ s1.regs.sp = s.regs.sp ∧ s1.regs.ip = s.regs.ip) ∧
    (∃ s1, executeInstruction { op := CLH } s = .ok s1 ∧
      s1.regs.flags.testBit 1 = false ∧
      s1.regs.flags.testBit 3 = s.regs.flags.testBit 3 ∧
      s1.regs.flags.testBit 2 = s.regs.flags.testBit 2 ∧
      s1.regs.flags.testBit 0 = s.regs.flags.testBit 0 ∧
      s1.regs.ax = s.regs.ax ∧ s1.regs.bx = s.regs.bx ∧ s1.regs.cx = s.regs.cx ∧
      s1.regs.dx = s.regs.dx ∧ s1.regs.sp = s.regs.sp ∧ s1.regs.ip = s.regs.ip) ∧
    (∃ s1, executeInstruction { op := STL } s = .ok s1 ∧
      s1.regs.flags.testBit 0 = true ∧
      s1.regs.flags.testBit 3 = s.regs.flags.testBit 3 ∧
      s1.regs.flags.testBit 2 = s.regs.flags.testBit 2 ∧
      s1.regs.flags.testBit 1 = s.regs.flags.testBit 1 ∧
      s1.regs.ax = s.regs.ax ∧ s1.regs.bx = s.regs.bx ∧ s1.regs.cx = s.regs.cx ∧
      s1.regs.dx = s.regs.dx ∧ s1.regs.sp = s.regs.sp ∧ s1.regs.ip = s.regs.ip) ∧
    (∃ s1, executeInstruction { op := CLL } s = .ok s1 ∧
      s1.regs.flags.testBit 0 = false ∧
      s1.regs.flags.testBit 3 = s.regs.flags.testBit 3 ∧
      s1.regs.flags.testBit 2 = s.regs.flags.testBit 2 ∧
      s1.regs.flags.testBit 1 = s.regs.flags.testBit 1 ∧
      s1.regs.ax = s.regs.ax ∧ s1.regs.bx = s.regs.bx ∧ s1.regs.cx = s.regs.cx ∧
      s1.regs.dx = s.regs.dx ∧ s1.regs.sp = s.regs.sp ∧ s1.regs.ip = s.regs.ip) := by
  obtain ⟨a1, a2, a3, a4, a5, a6, a7, a8⟩ := flagBits8 s.regs.flags hf
  obtain ⟨b1, b2, b3, b4, b5, b6, b7, b8⟩ := flagBits4 s.regs.flags hf
  obtain ⟨c1, c2, c3, c4, c5, c6, c7, c8⟩ := flagBits2 s.regs.flags hf
  obtain ⟨d1, d2, d3, d4, d5, d6, d7, d8⟩ := flagBits1 s.regs.flags hf
  exact ⟨⟨_, rfl, a1, a3, a4, a5, rfl, rfl, rfl, rfl, rfl, rfl⟩,
         ⟨_, rfl, a2, a6, a7, a8, rfl, rfl, rfl, rfl, rfl, rfl⟩,
         ⟨_, rfl, b1, b3, b4, b5, rfl, rfl, rfl, rfl, rfl, rfl⟩,
         ⟨_, rfl, b2, b6, b7, b8, rfl, rfl, rfl, rfl, rfl, rfl⟩,
         ⟨_, rfl, c1, c3, c4, c5, rfl, rfl, rfl, rfl, rfl, rfl⟩,
         ⟨_, rfl, c2, c6, c7, c8, rfl, rfl, rfl, rfl, rfl, rfl⟩,
         ⟨_, rfl, d1, d3, d4, d5, rfl, rfl, rfl, rfl, rfl, rfl⟩,
         ⟨_, rfl, d2, d6, d7, d8, rfl, rfl, rfl, rfl, rfl, rfl⟩⟩

/-- Claim C1 (code_bug evidence): the spec says a fetch whose operand bytes
would extend beyond the memory capacity signals an out-of-bounds failure and
faults. The code instead wraps the operand addresses modulo 65536 through the
uint16_t parameter of the memory index operator: with the 3-byte MOV tag at
the last address 65535, the fetch reads its operand bytes from addresses 0
and 1, returns operand 0x1234, and wraps the instruction pointer to 2, with
no fault of any kind (the fetch function is total). -/
theorem C1_fetch_wraps_at_top_of_memory :
    (fetchNextInstruction c1State).1.op = MOV ∧
    (fetchNextInstruction c1State).1.a1 =
      readByte c1State.mem 0 + 256 * readByte c1State.mem 1 ∧
    (fetchNextInstruction c1State).1.a1 = 0x1234 ∧
    (fetchNextInstruction c1State).2.regs.ip = 2 := by
  refine ⟨by decide, by decide, by decide, by decide⟩

/-- Witness for C3 at a fresh VM, whose byte at address 0 is the unmapped tag 0. -/
theorem C3_witness :
    getInstructionSize (readByte VMState.initState.mem VMState.initState.regs.ip) ≠ 1 ∧
    ∃ s1, step VMState.initState = .error (.IllegalInstruction, s1) ∧
      s1.regs.ax = VMState.initState.regs.ax ∧ s1.regs.bx = VMState.initState.regs.bx ∧
      s1.regs.cx = VMState.initState.regs.cx ∧ s1.regs.dx = VMState.initState.regs.dx ∧
      s1.regs.sp = VMState.initState.regs.sp ∧
      s1.regs.flags = VMState.initState.regs.flags :=
  C3_illegal_tag VMState.initState (by decide)

/-- Witness for C4 at a fresh VM, pushing and popping the count register. -/
theorem C4_witness :
    ∃ s1 s2, executeInstruction { op := PUSH, a1 := 2 } VMState.initState = .ok s1 ∧
      executeInstruction { op := POP, a1 := 2 } s1 = .ok s2 ∧
      s2.regs.ax = VMState.initState.regs.ax ∧ s2.regs.bx = VMState.initState.regs.bx ∧
      s2.regs.cx = VMState.initState.regs.cx ∧ s2.regs.dx = VMState.initState.regs.dx ∧
      s2.regs.sp = VMState.initState.regs.sp :=
  C4_push_pop_roundtrip VMState.initState 2 (by decide) (by decide) (by decide)
    (by decide) (by decide) (by decide) (by decide)

/-- Witness for C5 at a fresh VM with the value 0xBEEF. -/
theorem C5_witness :
    (VMState.initState.regs.sp < 2 →
      push VMState.initState 0xBEEF = .error (.StackOverflow, VMState.initState)) ∧
    (2 ≤ VMState.initState.regs.sp → ∃ s1, push VMState.initState 0xBEEF = .ok s1 ∧
      s1.regs.sp = VMState.initState.regs.sp - 2 ∧
      readByte s1.mem (VMState.initState.regs.sp - 2) = 0xBEEF % 256 ∧
      readByte s1.mem (VMState.initState.regs.sp - 1) = 0xBEEF / 256 % 256) ∧
    (65534 < VMState.initState.regs.sp →
      pop VMState.initState = .error (.StackUnderflow, VMState.initState)) ∧
    (VMState.initState.regs.sp ≤ 65534 → ∃ s1,
      pop VMState.initState = .ok (readByte VMState.initState.mem VMState.initState.regs.sp
        + 256 * readByte VMState.initState.mem (VMState.initState.regs.sp + 1), s1) ∧
      s1.regs.sp = (VMState.initState.regs.sp + 2) % 65536 ∧
      s1.mem = VMState.initState.mem) :=
  C5_stack_discipline VMState.initState 0xBEEF (by decide)

/-- Witness for C6 at a fresh VM, whose base register is 0. -/
theorem C6_witness :
    (VMState.initState.regs.bx = 0 → executeInstruction { op := DIV } VMState.initState
      = .error (.DivisionByZero, VMState.initState)) ∧
    (VMState.initState.regs.bx ≠ 0 → executeInstruction { op := DIV } VMState.initState
      = .ok { VMState.initState with regs := { VMState.initState.regs with
          ax := VMState.initState.regs.ax / VMState.initState.regs.bx } }) :=
  C6_div_by_zero VMState.initState

/-- Witness for C8: loading then fetching the instruction MOV 0x1234 at cursor 0. -/
theorem C8_witness :
    (loadInstr VMState.initState { op := MOV, a1 := 0x1234 }).breakLine
      = VMState.initState.breakLine
        + getInstructionSize ({ op := MOV, a1 := 0x1234 } : Instruction).op ∧
    (getInstructionSize ({ op := MOV, a1 := 0x1234 } : Instruction).op = 1 ∨
      getInstructionSize ({ op := MOV, a1 := 0x1234 } : Instruction).op = 3) ∧
    ∃ instr s2,
      fetchNextInstruction
        { loadInstr VMState.initState { op := MOV, a1 := 0x1234 } with
          regs := { (loadInstr VMState.initState { op := MOV, a1 := 0x1234 }).regs with
            ip := VMState.initState.breakLine } }
        = (instr, s2) ∧
      instr.op = ({ op := MOV, a1 := 0x1234 } : Instruction).op ∧
      (3 ≤ getInstructionSize ({ op := MOV, a1 := 0x1234 } : Instruction).op →
        instr.a1 = ({ op := MOV, a1 := 0x1234 } : Instruction).a1) ∧
      s2.regs.ip = VMState.initState.breakLine
        + getInstructionSize ({ op := MOV, a1 := 0x1234 } : Instruction).op :=
  C8_load_fetch VMState.initState { op := MOV, a1 := 0x1234 }
    (by decide) (by decide) (by decide)

/-- Witness for C10 at a fresh VM. -/
theorem C10_witness :
    (∃ s1, executeInstruction { op := ADD } VMState.initState = .ok s1 ∧
      s1.regs.ax = (VMState.initState.regs.ax + VMState.initState.regs.bx) % 65536 ∧
      s1.regs.bx = VMState.initState.regs.bx ∧ s1.regs.cx = VMState.initState.regs.cx ∧
      s1.regs.dx = VMState.initState.regs.dx ∧
      s1.regs.sp = VMState.initState.regs.sp ∧
      s1.regs.flags = VMState.initState.regs.flags) ∧
    (∃ s1, executeInstruction { op := SUB } VMState.initState = .ok s1 ∧
      (s1.regs.ax : Int) = ((VMState.initState.regs.ax : Int)
        - (VMState.initState.regs.bx : Int)) % 65536 ∧
      s1.regs.bx = VMState.initState.regs.bx ∧ s1.regs.cx = VMState.initState.regs.cx ∧
      s1.regs.dx = VMState.initState.regs.dx ∧
      s1.regs.sp = VMState.initState.regs.sp ∧
      s1.regs.flags = VMState.initState.regs.flags) ∧
    (∃ s1, executeInstruction { op := MUL } VMState.initState = .ok s1 ∧
      s1.regs.ax = (VMState.initState.regs.ax * VMState.initState.regs.bx) % 65536 ∧
      s1.regs.bx = VMState.initState.regs.bx ∧ s1.regs.cx = VMState.initState.regs.cx ∧
      s1.regs.dx = VMState.initState.regs.dx ∧
      s1.regs.sp = VMState.initState.regs.sp ∧
      s1.regs.flags = VMState.initState.regs.flags) :=
  C10_arith VMState.initState (by decide) (by decide)

/-- Witness for C7 at a fresh VM, whose flag word is 0. -/
theorem C7_witness :
    (∃ s1, executeInstruction { op := STE } VMState.initState = .ok s1 ∧
      s1.regs.flags.testBit 3 = true ∧
      s1.regs.flags.testBit 2 = VMState.initState.regs.flags.testBit 2 ∧
      s1.regs.flags.testBit 1 = VMState.initState.regs.flags.testBit 1 ∧
      s1.regs.flags.testBit 0 = VMState.initState.regs.flags.testBit 0 ∧
      s1.regs.ax = VMState.initState.regs.ax ∧ s1.regs.bx = VMState.initState.regs.bx ∧ s1.regs.cx = VMState.initState.regs.cx ∧
      s1.regs.dx = VMState.initState.regs.dx ∧ s1.regs.sp = VMState.initState.regs.sp ∧ s1.regs.ip = VMState.initState.regs.ip) ∧
    (∃ s1, executeInstruction { op := CLE } VMState.initState = .ok s1 ∧
      s1.regs.flags.testBit 3 = false ∧
      s1.regs.flags.testBit 2 = VMState.initState.regs.flags.testBit 2 ∧
      s1.regs.flags.testBit 1 = VMState.initState.regs.flags.testBit 1 ∧
      s1.regs.flags.testBit 0 = VMState.initState.regs.flags.testBit 0 ∧
      s1.regs.ax = VMState.initState.regs.ax ∧ s1.regs.bx = VMState.initState.regs.bx ∧ s1.regs.cx = VMState.initState.regs.cx ∧
      s1.regs.dx = VMState.initState.regs.dx ∧ s1.regs.sp = VMState.initState.regs.sp ∧ s1.regs.ip = VMState.initState.regs.ip) ∧
    (∃ s1, executeInstruction { op := STG } VMState.initState = .ok s1 ∧
      s1.regs.flags.testBit 2 = true ∧
      s1.regs.flags.testBit 3 = VMState.initState.regs.flags.testBit 3 ∧
      s1.regs.flags.testBit 1 = VMState.initState.regs.flags.testBit 1 ∧
      s1.regs.flags.testBit 0 = VMState.initState.regs.flags.testBit 0 ∧
      s1.regs.ax = VMState.initState.regs.ax ∧ s1.regs.bx = VMState.initState.regs.bx ∧ s1.regs.cx = VMState.initState.regs.cx ∧
      s1.regs.dx = VMState.initState.regs.dx ∧ s1.regs.sp = VMState.initState.regs.sp ∧ s1.regs.ip = VMState.initState.regs.ip) ∧
    (∃ s1, executeInstruction { op := CLG } VMState.initState = .ok s1 ∧
      s1.regs.flags.testBit 2 = false ∧
      s1.regs.flags.testBit 3 = VMState.initState.regs.flags.testBit 3 ∧
      s1.regs.flags.testBit 1 = VMState.initState.regs.flags.testBit 1 ∧
      s1.regs.flags.testBit 0 = VMState.initState.regs.flags.testBit 0 ∧
      s1.regs.ax = VMState.initState.regs.ax ∧ s1.regs.bx = VMState.initState.regs.bx ∧ s1.regs.cx = VMState.initState.regs.cx ∧
      s1.regs.dx = VMState.initState.regs.dx ∧ s1.regs.sp = VMState.initState.regs.sp ∧ s1.regs.ip = VMState.initState.regs.ip) ∧
    (∃ s1, executeInstruction { op := STH } VMState.initState = .ok s1 ∧
      s1.regs.flags.testBit 1 = true ∧
      s1.regs.flags.testBit 3 = VMState.initState.regs.flags.testBit 3 ∧
      s1.regs.flags.testBit 2 = VMState.initState.regs.flags.testBit 2 ∧
      s1.regs.flags.testBit 0 = VMState.initState.regs.flags.testBit 0 ∧
      s1.regs.ax = VMState.initState.regs.ax ∧ s1.regs.bx = VMState.initState.regs.bx ∧ s1.regs.cx = VMState.initState.regs.cx ∧
      s1.regs.dx = VMState.initState.regs.dx ∧ s1.regs.sp = VMState.initState.regs.sp ∧ s1.regs.ip = VMState.initState.regs.ip) ∧
    (∃ s1, executeInstruction { op := CLH } VMState.initState = .ok s1 ∧
      s1.regs.flags.testBit 1 = false ∧
      s1.regs.flags.testBit 3 = VMState.initState.regs.flags.testBit 3 ∧
      s1.regs.flags.testBit 2 = VMState.initState.regs.flags.testBit 2 ∧
      s1.regs.flags.testBit 0 = VMState.initState.regs.flags.testBit 0 ∧
      s1.regs.ax = VMState.initState.regs.ax ∧ s1.regs.bx = VMState.initState.regs.bx ∧ s1.regs.cx = VMState.initState.regs.cx ∧
      s1.regs.dx = VMState.initState.regs.dx ∧ s1.regs.sp = VMState.initState.regs.sp ∧ s1.regs.ip = VMState.initState.regs.ip) ∧
    (∃ s1, executeInstruction { op := STL } VMState.initState = .ok s1 ∧
      s1.regs.flags.testBit 0 = true ∧
      s1.regs.flags.testBit 3 = VMState.initState.regs.flags.testBit 3 ∧
      s1.regs.flags.testBit 2 = VMState.initState.regs.flags.testBit 2 ∧
      s1.regs.flags.testBit 1 = VMState.initState.regs.flags.testBit 1 ∧
      s1.regs.ax = VMState.initState.regs.ax ∧ s1.regs.bx = VMState.initState.regs.bx ∧ s1.regs.cx = VMState.initState.regs.cx ∧
      s1.regs.dx = VMState.initState.regs.dx ∧ s1.regs.sp = VMState.initState.regs.sp ∧ s1.regs.ip = VMState.initState.regs.ip) ∧
    (∃ s1, executeInstruction { op := CLL } VMState.initState = .ok s1 ∧
      s1.regs.flags.testBit 0 = false ∧
      s1.regs.flags.testBit 3 = VMState.initState.regs.flags.testBit 3 ∧
      s1.regs.flags.testBit 2 = VMState.initState.regs.flags.testBit 2 ∧
      s1.regs.flags.testBit 1 = VMState.initState.regs.flags.testBit 1 ∧
      s1.regs.ax = VMState.initState.regs.ax ∧ s1.regs.bx = VMState.initState.regs.bx ∧ s1.regs.cx = VMState.initState.regs.cx ∧
      s1.regs.dx = VMState.initState.regs.dx ∧ s1.regs.sp = VMState.initState.regs.sp ∧ s1.regs.ip = VMState.initState.regs.ip) :=
  C7_flag_ops VMState.initState (by decide)

end RohitVM
